import Mathlib

/-!
Shallow embedding of the PhD MRSI analysis scripts, together with theorems
checking the natural-language specification against the code.

Sources embedded here:
  * `1Rotate_Coord.py` / `1Rotate_CoordTTTT.py` — voxel coordinate rotation;
  * `src/unnamed/part_000` (the Excel heatmap visualizer) — `round_up_nice`,
    `round_down_nice`, the vmin/vmax adjustment, and the grid reconstruction;
  * `3Intensity_from_excel.py` — grid reconstruction (pivot/reindex/mask);
  * `T1_plot_TI_var.py` / `T2_plot_TE_var.py` — jMRUI parsing, length checks
    and the fit fallback control flow;
  * `2Sorting_Data_From_2txt_PC.py` — spreadsheet formula assembly;
  * `T_renaming_dcm_files.py` — DICOM rename-copy loop.

Real numbers carried by the scripts are modelled as rationals; the numerical
solver (`scipy.optimize.curve_fit`) is treated as an oracle parameter whose
failure is `Option.none`, so that only the scripts' own control flow is
verified, never the solver's numerics.
-/

namespace PhD

/-! ### Coordinate rotation (`1Rotate_Coord.py`, lines 32–42)

`GRID_X, GRID_Y, GRID_Z = 32, 32, 8`; `rotate_coord` rotates an (x, y, z)
triple about the z axis and raises `ValueError` on an unsupported angle,
modelled as `Except.error`. -/

def GRID_X : ℤ := 32
def GRID_Y : ℤ := 32
def GRID_Z : ℤ := 8

def rotate_coord (x y z rotation : ℤ) : Except String (ℤ × ℤ × ℤ) :=
  if rotation = 90 then .ok (GRID_Y - 1 - y, x, z)
  else if rotation = 180 then .ok (GRID_X - 1 - x, GRID_Y - 1 - y, z)
  else if rotation = 270 then .ok (y, GRID_X - 1 - x, z)
  else .error "Unsupported rotation angle"

/-- Uncurried wrapper around `rotate_coord` acting on a triple. -/
def rotP (rotation : ℤ) (p : ℤ × ℤ × ℤ) : Except String (ℤ × ℤ × ℤ) :=
  rotate_coord p.1 p.2.1 p.2.2 rotation

/-- The total function behind `rotate_coord` at a supported angle: the value
returned on success, the input itself on the (never-taken) error path. -/
def rotFun (rotation : ℤ) (p : ℤ × ℤ × ℤ) : ℤ × ℤ × ℤ :=
  ((rotP rotation p).toOption).getD p

/-- The 32×32 grid on which the rotations act (z is carried unchanged). -/
def gridSet : Set (ℤ × ℤ × ℤ) :=
  {p | 0 ≤ p.1 ∧ p.1 < GRID_X ∧ 0 ≤ p.2.1 ∧ p.2.1 < GRID_Y}

/-! ### Rounding helpers of the heatmap script (`src/unnamed/part_000`, 179–197)

`round_up_nice` / `round_down_nice` round a value outward to one significant
digit; `math.floor(math.log10 ax)` is embedded as `floorLog10` on positive
rationals, computed with an explicit fuel so every instance evaluates. -/

def natLog10Aux : ℕ → ℕ → ℕ
  | 0, _ => 0
  | fuel + 1, n => if n < 10 then 0 else natLog10Aux fuel (n / 10) + 1

/-- Number of decimal digits of `n` minus one (`⌊log10 n⌋` for `n ≥ 1`). -/
def natLog10 (n : ℕ) : ℕ := natLog10Aux n n

def natClog10Aux : ℕ → ℚ → ℕ
  | 0, _ => 0
  | fuel + 1, r => if r ≤ 1 then 0 else natClog10Aux fuel (r / 10) + 1

/-- `⌈log10 r⌉` for a rational `r ≥ 1`, by repeated division. -/
def natClog10 (r : ℚ) : ℕ := natClog10Aux (r.num.toNat) r

/-- `math.floor(math.log10 q)` for a positive rational `q`. -/
def floorLog10 (q : ℚ) : ℤ :=
  if 1 ≤ q then (natLog10 ⌊q⌋.toNat : ℤ) else -(natClog10 q⁻¹ : ℤ)

/-- `round_up_nice` (heatmap script, lines 179–187): round `x` up to one
significant digit, e.g. 123 → 200, 78 → 80. -/
def round_up_nice (x : ℚ) : ℚ :=
  if x = 0 then 0
  else (if 0 < x then 1 else -1) *
    (⌈|x| / 10 ^ floorLog10 |x|⌉ * 10 ^ floorLog10 |x|)

/-- `round_down_nice` (heatmap script, lines 189–197): round `x` down to one
significant digit, e.g. 123 → 100, 78 → 70. -/
def round_down_nice (x : ℚ) : ℚ :=
  if x = 0 then 0
  else (if 0 < x then 1 else -1) *
    (⌊|x| / 10 ^ floorLog10 |x|⌋ * 10 ^ floorLog10 |x|)

/-- The vmax adjustment of the heatmap script (lines 199–206): when the
user's vmax exceeds the data maximum, snap it to `round_up_nice` of the
actual maximum, clamped so it never drops below the actual maximum. -/
def adjustVmax (hasValues : Bool) (vmax actualMax : ℚ) : ℚ :=
  if hasValues ∧ actualMax < vmax then
    let n := round_up_nice actualMax
    if n < actualMax then actualMax else n
  else vmax

/-- The vmin adjustment (lines 208–216), symmetrically. -/
def adjustVmin (hasValues : Bool) (vmin actualMin : ℚ) : ℚ :=
  if hasValues ∧ vmin < actualMin then
    let n := round_down_nice actualMin
    if actualMin < n then actualMin else n
  else vmin

/-- Lines 199–223 in full: both independent adjustments, then the safety
swap with a warning when the adjusted vmin exceeds the adjusted vmax.
Returns (vmin, vmax, swapped?). -/
def adjustBounds (hasValues : Bool) (vmin vmax actualMin actualMax : ℚ) :
    ℚ × ℚ × Bool :=
  let vmax' := adjustVmax hasValues vmax actualMax
  let vmin' := adjustVmin hasValues vmin actualMin
  if vmax' < vmin' then (vmax', vmin', true) else (vmin', vmax', false)

/-! ### Python strings as character lists

Python text values are embedded as `List Char`, with the string methods the
scripts use (`strip`, `startswith`, `split`, `join`, `int(...)`) implemented
by structural recursion so that every concrete instance evaluates. -/

abbrev Chars := List Char

/-- Coerce a Lean string literal to the character-list model. -/
def str (s : String) : Chars := s.data

/-- The whitespace test of Python's `str.strip` / `str.split`. -/
def isSpaceChar (c : Char) : Bool := c == ' ' || c == '\t' || c == '\n' || c == '\r'

/-- Python `str.strip()`. -/
def strip (s : Chars) : Chars :=
  ((s.dropWhile isSpaceChar).reverse.dropWhile isSpaceChar).reverse

/-- Python `str.startswith(pre)`. -/
def startsWithChars (pre s : Chars) : Bool := pre.isPrefixOf s

/-- Python `s.split(sep)` for a one-character separator. -/
def splitOnChar (sep : Char) : Chars → List Chars
  | [] => [[]]
  | ch :: rest =>
    match splitOnChar sep rest with
    | [] => [[]]
    | grp :: gs => if ch == sep then [] :: grp :: gs else (ch :: grp) :: gs

/-- Python `s.split()` (no argument): split on whitespace runs, no empties. -/
def pySplitWS (s : Chars) : List Chars :=
  (splitOnChar ' ' (s.map (fun c => if isSpaceChar c then ' ' else c))).filter
    (fun g => !g.isEmpty)

/-- Python `sep.join(parts)` for a one-character separator. -/
def joinWithChar (sep : Char) : List Chars → Chars
  | [] => []
  | [g] => g
  | g :: gs => g ++ sep :: joinWithChar sep gs

def digitVal? (c : Char) : Option ℕ :=
  if '0' ≤ c ∧ c ≤ '9' then some (c.toNat - '0'.toNat) else none

/-- Decimal digits of a nonnegative number, via the body of Python `int()`. -/
def parseNat? (s : Chars) : Option ℕ :=
  if s.isEmpty then none
  else s.foldl (fun acc c =>
    match acc, digitVal? c with
    | some n, some d => some (n * 10 + d)
    | _, _ => none) (some 0)

/-- Python `int(s)`: optional sign, decimal digits, surrounding whitespace. -/
def parseInt? (s : Chars) : Option ℤ :=
  match strip s with
  | '-' :: rest => (parseNat? rest).map (fun n => -(n : ℤ))
  | '+' :: rest => (parseNat? rest).map (fun n => (n : ℤ))
  | t => (parseNat? t).map (fun n => (n : ℤ))

def natToCharsAux : ℕ → ℕ → Chars
  | 0, _ => []
  | fuel + 1, n =>
    if n < 10 then [Char.ofNat (n + '0'.toNat)]
    else natToCharsAux fuel (n / 10) ++ [Char.ofNat (n % 10 + '0'.toNat)]

/-- Decimal rendering of a natural number. -/
def natToChars (n : ℕ) : Chars := natToCharsAux (n + 1) n

/-- Python `str(z)` / f-string rendering of an integer. -/
def intToChars (z : ℤ) : Chars :=
  if z < 0 then '-' :: natToChars (-z).toNat else natToChars z.toNat

/-! ### jMRUI amplitude/phase parsing (`T1_plot_TI_var.py`, lines 47–93)

The scanner is a fold over the file's lines; Python `float(...)` on a token
is an oracle parameter `parseVal` (`none` = `ValueError`, skipped). -/

structure ScanState where
  amps : List ℚ
  phases : List ℚ
  insideAmp : Bool
  insidePhase : Bool
deriving DecidableEq

/-- All tokens of a line that parse as floats (`for v in line.split()`). -/
def lineFloats (parseVal : Chars → Option ℚ) (line : Chars) : List ℚ :=
  (pySplitWS line).filterMap parseVal

/-- One iteration of the `for line in f` loop of
`extract_signed_amplitudes_jmrui`: note that the amplitude-block body falls
through to the `Phases` checks (the source has no `continue` after the
token loop). -/
def scanLine (parseVal : Chars → Option ℚ) (st : ScanState) (rawLine : Chars) :
    ScanState :=
  let line := strip rawLine
  if line.isEmpty then st
  else if startsWithChars (str "Amplitudes") line then
    { st with insideAmp := true }
  else if st.insideAmp then
    if startsWithChars (str "Standard deviation of Amplitudes") line then
      { st with insideAmp := false }
    else
      let st' := { st with amps := st.amps ++ lineFloats parseVal line }
      if startsWithChars (str "Phases") line then { st' with insidePhase := true }
      else if st'.insidePhase then
        if startsWithChars (str "Standard deviation of Phases") line then
          { st' with insidePhase := false }
        else { st' with phases := st'.phases ++ lineFloats parseVal line }
      else st'
  else if startsWithChars (str "Phases") line then
    { st with insidePhase := true }
  else if st.insidePhase then
    if startsWithChars (str "Standard deviation of Phases") line then
      { st with insidePhase := false }
    else { st with phases := st.phases ++ lineFloats parseVal line }
  else st

/-- The amplitude and phase lists collected by the scanning loop. -/
def jmruiScan (parseVal : Chars → Option ℚ) (lines : List Chars) :
    List ℚ × List ℚ :=
  let st := lines.foldl (scanLine parseVal) ⟨[], [], false, false⟩
  (st.amps, st.phases)

/-- `extract_signed_amplitudes_jmrui` (T1 script): sign the amplitudes by
the phases; no amplitudes is a `ValueError`, no phases returns the
amplitudes unchanged. -/
def extract_signed_amplitudes_jmrui (parseVal : Chars → Option ℚ)
    (lines : List Chars) : Except String (List ℚ) :=
  let s := jmruiScan parseVal lines
  if s.1 = [] then .error "No amplitudes found."
  else if s.2 = [] then .ok s.1
  else .ok (List.zipWith (fun a p => if 0 ≤ p then a else -a) s.1 s.2)

/-- The amplitude scanner of the T2 script (`extract_amplitudes_jmrui`,
lines 37–54): like the T1 scanner but amplitudes only, and the standard
deviation header stops the whole scan (`break`). -/
def t2AmpScan (parseVal : Chars → Option ℚ) : Bool → List Chars → List ℚ
  | _, [] => []
  | inside, l :: rest =>
    let line := strip l
    if startsWithChars (str "Amplitudes") line then t2AmpScan parseVal true rest
    else if inside then
      if startsWithChars (str "Standard deviation of Amplitudes") line then []
      else lineFloats parseVal line ++ t2AmpScan parseVal inside rest
    else t2AmpScan parseVal false rest

def extract_amplitudes_jmrui (parseVal : Chars → Option ℚ)
    (lines : List Chars) : List ℚ :=
  t2AmpScan parseVal false lines

/-- `load_ti_values` (T1 script, lines 101–112): drop the header line, parse
the remaining lines, skip failures, `ValueError` when nothing parses. -/
def load_ti_values (parseVal : Chars → Option ℚ) (lines : List Chars) :
    Except String (List ℚ) :=
  let vals := (lines.drop 1).filterMap (fun l => parseVal (strip l))
  if vals = [] then .error "No TI values found." else .ok vals

/-- The TE reading loop of the T2 script (lines 58–67): parse every
nonempty line, skipping failures; an empty result is not an error here. -/
def loadTEValues (parseVal : Chars → Option ℚ) (lines : List Chars) : List ℚ :=
  lines.filterMap (fun l =>
    let s := strip l
    if s.isEmpty then none else parseVal s)

/-! ### Relaxometry fit control flow

`scipy.optimize.curve_fit` is an oracle: `none` models any raised
exception (non-convergence included), `some` a returned parameter tuple. -/

/-- `np.max` of a list (the scripts apply it to nonempty data). -/
def maxList (l : List ℚ) : ℚ :=
  match l with
  | [] => 0
  | a :: t => t.foldl max a

/-- `np.median` of a list: middle of the sorted data, or the mean of the two
middle elements. -/
def medianList (l : List ℚ) : ℚ :=
  let s := l.insertionSort (· ≤ ·)
  let n := s.length
  if n = 0 then 0
  else if n % 2 = 1 then s.getD (n / 2) 0
  else (s.getD (n / 2 - 1) 0 + s.getD (n / 2) 0) / 2

structure T1FitResult where
  M0_fit : ℚ
  T1_fit : ℚ
  alpha_fit : ℚ
  usedFallback : Bool
deriving DecidableEq

/-- The T1 script's try/except fit (lines 139–158): on any failure of the
3-parameter fit, set `alpha = 1.0` and fit the reduced 2-parameter model;
a failure of that second fit propagates (fatal). -/
def t1FitStage (free : Option (ℚ × ℚ × ℚ)) (fallback : Option (ℚ × ℚ)) :
    Except String T1FitResult :=
  match free with
  | some (m, t, a) => .ok ⟨m, t, a, false⟩
  | none =>
    match fallback with
    | some (m, t) => .ok ⟨m, t, 1, true⟩
    | none => .error "curve_fit did not converge"

structure T2FitResult where
  M0_alpha : ℚ
  T2_alpha : ℚ
  alpha_fit : ℚ
  use_fixed_alpha : Bool
deriving DecidableEq

/-- The T2 script's try/except fit (lines 91–105): the guarded block raises
when `alpha` leaves `[0, 1.5]`; the except branch falls back to the initial
guesses with `alpha = 1.0` and is never fatal. -/
def t2FitStage (free : Option (ℚ × ℚ × ℚ)) (M0_guess T2_guess : ℚ) :
    T2FitResult :=
  match free with
  | none => ⟨M0_guess, T2_guess, 1, true⟩
  | some (m, t, a) =>
    if 0 ≤ a ∧ a ≤ 1.5 then ⟨m, t, a, false⟩
    else ⟨M0_guess, T2_guess, 1, true⟩

/-- The T1 script from parsing to fitting (lines 96–168): parse amplitudes
and TI values, raise on a length mismatch, then fit (free fit with
fallback, then the unguarded α = 1 comparison fit). The returned tuple is
everything the script later plots/exports. -/
def t1Script (parseVal : Chars → Option ℚ) (ampLines tiLines : List Chars)
    (freeFit : List ℚ → List ℚ → Option (ℚ × ℚ × ℚ))
    (fixedFit : List ℚ → List ℚ → Option (ℚ × ℚ)) :
    Except String (List ℚ × List ℚ × T1FitResult × (ℚ × ℚ)) := do
  let amps ← extract_signed_amplitudes_jmrui parseVal ampLines
  let ti ← load_ti_values parseVal tiLines
  if ti.length ≠ amps.length then
    throw "Number of TI values and amplitudes do not match."
  else
    let fit ← t1FitStage (freeFit ti amps) (fixedFit ti amps)
    match fixedFit ti amps with
    | none => throw "comparison fit did not converge"
    | some pf => pure (ti, amps, fit, pf)

/-- The T2 script from parsing to fitting (lines 56–116). -/
def t2Script (parseVal : Chars → Option ℚ) (ampLines teLines : List Chars)
    (freeFit : List ℚ → List ℚ → Option (ℚ × ℚ × ℚ))
    (fixedFit : List ℚ → List ℚ → Option (ℚ × ℚ)) :
    Except String (List ℚ × List ℚ × T2FitResult × (ℚ × ℚ)) :=
  let amps := extract_amplitudes_jmrui parseVal ampLines
  let te := loadTEValues parseVal teLines
  if amps.length ≠ te.length then
    .error "Mismatch between amplitudes and TE values."
  else
    let fit := t2FitStage (freeFit te amps) (maxList amps) (medianList te)
    match fixedFit te amps with
    | none => .error "comparison fit did not converge"
    | some pf => .ok (te, amps, fit, pf)

/-! ### The block-processing loop of `1Rotate_Coord.py` (`main`, lines 68–98)

A voxel block is a `Coord` header line, a data line whose first
tab-separated field is an `x_y_z` coordinate, and an end line. The try
block parses and rotates the coordinate; any failure in it is caught and
the three original lines are passed through. Reading `lines[i+1]` /
`lines[i+2]` happens before the try block, so a `Coord` header in the last
two lines raises an uncaught `IndexError`, modelled as `Except.error`. -/

/-- The body of the per-block try block: split off the first tab field,
parse it as `x_y_z`, rotate, and rebuild the line. `none` models any
exception (wrong number of `_` parts, non-integer field, unsupported
rotation angle). -/
def rotateDataLine (rotation : ℤ) (dataLine : Chars) : Option Chars :=
  let parts := splitOnChar '\t' dataLine
  match splitOnChar '_' (strip (parts.headD [])) with
  | [xs, ys, zs] =>
    match parseInt? xs, parseInt? ys, parseInt? zs with
    | some x, some y, some z =>
      match rotate_coord x y z rotation with
      | .ok (nx, ny, nz) =>
        some (joinWithChar '\t'
          ((intToChars nx ++ '_' :: intToChars ny ++ '_' :: intToChars nz) ::
            parts.tail))
      | .error _ => none
    | _, _, _ => none
  | _ => none

/-- The `while i < len(lines)` loop: `Coord` headers consume three lines
(success emits the stripped header, the rotated data line and the stripped
end line; a caught failure emits the three original lines), other lines are
copied; a `Coord` header with fewer than two following lines is the
uncaught `IndexError`. -/
def processLines (rotation : ℤ) : List Chars → Except String (List Chars)
  | [] => .ok []
  | l :: rest =>
    if startsWithChars (str "Coord") (strip l) then
      match rest with
      | d :: e :: rest' =>
        (processLines rotation rest').map (fun out =>
          match rotateDataLine rotation (strip d) with
          | some rotated => strip l :: rotated :: strip e :: out
          | none => l :: d :: e :: out)
      | _ => .error "IndexError: list index out of range"
    else
      (processLines rotation rest).map (fun out => l :: out)


/-! ### Spreadsheet formula assembly (`2Sorting_Data_From_2txt_PC.py`)

The Excel writer emits, for every present record, the derived-quantity
cells Height, FWHM, I0ps and I0 (lines 201–224 for the "all" sheet, 249–266
for the per-slice sheets) and the `c [mM]` column (lines 282–292). A cell
value is either text (raw parsed fields, formulas, the empty string) or a
number; the writer below records exactly what the script passes to
`ws.cell(...)` for the derived columns. -/

inductive CellVal where
  | text (s : Chars)
  | num (q : ℚ)
deriving DecidableEq

/-- `openpyxl.utils.get_column_letter`: 1-based bijective base-26. -/
def get_column_letter_aux : ℕ → ℕ → Chars
  | 0, _ => []
  | fuel + 1, n =>
    if n = 0 then []
    else get_column_letter_aux fuel ((n - 1) / 26) ++
      [Char.ofNat ((n - 1) % 26 + 'A'.toNat)]

def get_column_letter (n : ℕ) : Chars := get_column_letter_aux n n

/-- `col_letter(idx)` of the script: letter of 0-based index `idx`. -/
def col_letter (idx : ℕ) : Chars := get_column_letter (idx + 1)

/-- `header_cols = headers + ['Height', 'FWHM', 'I0ps', 'I0']`. -/
def header_cols (headers : List Chars) : List Chars :=
  headers ++ [str "Height", str "FWHM", str "I0ps", str "I0"]

/-- Derived cells written for a phantom record in row `r` of the "all"
sheet: association list column-number → value (lines 204–214). -/
def allSheetDerivedP (headers : List Chars) (r : ℕ) : List (ℕ × CellVal) :=
  let hc := header_cols headers
  let area_idx := hc.indexOf (str "Area")
  let ld_idx := hc.indexOf (str "LDamping")
  let h_idx := hc.indexOf (str "Height")
  let f_idx := hc.indexOf (str "FWHM")
  [(h_idx + 1, .text (str "=" ++
      (col_letter area_idx ++ (natToChars r ++ (str "/" ++
        (col_letter ld_idx ++ natToChars r)))))),
   (f_idx + 1, .text (str "=" ++
      (col_letter ld_idx ++ (natToChars r ++ str "/PI()")))),
   (f_idx + 2, .text (str "=" ++
      (col_letter h_idx ++ (natToChars r ++ (str "*EXP($B$3/" ++
        (col_letter f_idx ++ (natToChars r ++ str ")"))))))),
   (f_idx + 3, .text (str "=" ++
      (get_column_letter (f_idx + 2) ++ (natToChars r ++
        str "*(1-EXP(-$B$1/$B$2))"))))]

/-- Derived cells written for a subject record in row `r` of the "all"
sheet, at column offset 18 (lines 216–224). -/
def allSheetDerivedS (headers : List Chars) (r : ℕ) : List (ℕ × CellVal) :=
  let hc := header_cols headers
  let h_idx := hc.indexOf (str "Height")
  let f_idx := hc.indexOf (str "FWHM")
  [(h_idx + 1 + 18, .text (str "=" ++
      (str "V" ++ (natToChars r ++ (str "/Y" ++ natToChars r))))),
   (f_idx + 1 + 18, .text (str "=" ++
      (str "Y" ++ (natToChars r ++ str "/PI()")))),
   (f_idx + 2 + 18, .text (str "=" ++
      (str "AE" ++ (natToChars r ++ (str "*EXP($D$3/AF" ++
        (natToChars r ++ str ")")))))),
   (f_idx + 3 + 18, .text (str "=" ++
      (str "AG" ++ (natToChars r ++ str "*(1-EXP(-$D$1/$D$2))"))))]

/-- Derived cells written for row `r` of a per-slice sheet (lines 256–266). -/
def zSheetDerived (headers : List Chars) (r : ℕ) : List (ℕ × CellVal) :=
  let hc := header_cols headers
  let area_idx := hc.indexOf (str "Area")
  let ld_idx := hc.indexOf (str "LDamping")
  let h_idx := hc.indexOf (str "Height")
  let f_idx := hc.indexOf (str "FWHM")
  [(h_idx + 1, .text (str "=" ++
      (col_letter area_idx ++ (natToChars r ++ (str "/" ++
        (col_letter ld_idx ++ natToChars r)))))),
   (f_idx + 1, .text (str "=" ++
      (col_letter ld_idx ++ (natToChars r ++ str "/PI()")))),
   (f_idx + 2, .text (str "=" ++
      (col_letter h_idx ++ (natToChars r ++ (str "*EXP($B$3/" ++
        (col_letter f_idx ++ (natToChars r ++ str ")"))))))),
   (f_idx + 3, .text (str "=" ++
      (str "N" ++ (natToChars r ++ str "*(1-EXP(-$B$1/$B$2))"))))]

/-- The `c [mM]` cell written in row `r`: a live formula on the "all"
sheet, the empty string on every per-slice sheet (lines 285–292). -/
def cmM_cell (isAllSheet : Bool) (r : ℕ) : CellVal :=
  if isAllSheet then
    .text (str "=" ++
      (str "IF(AND(O" ++ (natToChars r ++ (str "<>0, AH" ++ (natToChars r ++
        (str "<>0), (AH" ++ (natToChars r ++ (str "/O" ++ (natToChars r ++
        str ")*$F$1, \"\")")))))))))
  else .text (str "")


/-! ### DICOM rename-copy (`T_renaming_dcm_files.py`, lines 57–90)

Per-folder processing is modelled as a pure function from the folder's file
names (and an oracle `readNames` for the name list read from the single
`.txt` file: its stripped nonempty lines) to the list of file-system
actions the script performs: the only effects available in the source are
`os.makedirs(current/new)` and `shutil.copy2(old, current/new/name.dcm)`.
Paths are relative to the folder being processed. -/

inductive FsAction where
  | mkdir (path : Chars)
  | copy (src dst : Chars)
deriving DecidableEq

structure FolderOutcome where
  actions : List FsAction
  processed : Bool
  skipReason : Option Chars
deriving DecidableEq

/-- Lexicographic comparison of character lists (Python string `sorted`). -/
def charsLe : Chars → Chars → Bool
  | [], _ => true
  | _ :: _, [] => false
  | a :: s, b :: t => if a < b then true else if b < a then false else charsLe s t

def insertSorted (x : Chars) : List Chars → List Chars
  | [] => [x]
  | y :: ys => if charsLe x y then x :: y :: ys else y :: insertSorted x ys

/-- Insertion sort (the script only needs `sorted`'s output order). -/
def sortChars : List Chars → List Chars
  | [] => []
  | x :: xs => insertSorted x (sortChars xs)

/-- Python `str.lower()`. -/
def lowerChars (s : Chars) : Chars := s.map Char.toLower

/-- One folder of the `os.walk` loop: precondition checks, then the
rename-copy of every `.dcm` file into the `new` subfolder. -/
def process_folder (files : List Chars) (readNames : Chars → List Chars) :
    FolderOutcome :=
  let dcm_files := sortChars (files.filter
    (fun f => (str ".dcm").isSuffixOf (lowerChars f)))
  let txt_files := files.filter
    (fun f => (str ".txt").isSuffixOf (lowerChars f))
  if dcm_files = [] ∨ txt_files.length ≠ 1 then
    ⟨[], false, some (str "Missing DCM or TXT / multiple TXT")⟩
  else
    let new_names := readNames (txt_files.headD [])
    if dcm_files.length ≠ new_names.length then
      ⟨[], false, some (str "DCM/TXT count mismatch")⟩
    else
      ⟨FsAction.mkdir (str "new") ::
        (List.zip dcm_files new_names).map (fun p =>
          FsAction.copy p.1 (str "new/" ++ p.2 ++ str ".dcm")),
        true, none⟩

/-- `RowRef r s`: the text `s` contains the decimal row number `r`
somewhere, i.e. the formula cross-references a cell of row `r`. -/
def RowRef (r : ℕ) (s : Chars) : Prop :=
  ∃ pre suf, s = pre ++ (natToChars r ++ suf)


/-! ### Voxel grid reconstruction (`3Intensity_from_excel.py`, lines 93–120;
heatmap script `src/unnamed/part_000`, lines 228–256)

One z-slice is the list of its (x, y, intensity) rows. The scripts build
`xs = np.arange(x.min(), x.max() + 1)` and `ys` likewise, pivot to a grid
with one cell per (x, y), reindex so missing pairs become NaN, and mask
values outside the user window [vmin, vmax] to NaN as well. `Option ℚ`
models a cell, `none` being the NaN/masked "no data" sentinel. -/

def minAux (a : ℤ) : List ℤ → ℤ
  | [] => a
  | b :: l => minAux (min a b) l

def maxAux (a : ℤ) : List ℤ → ℤ
  | [] => a
  | b :: l => maxAux (max a b) l

/-- `pd.Series.min` over a column of integers (0 on an empty column). -/
def colMin : List ℤ → ℤ
  | [] => 0
  | a :: l => minAux a l

/-- `pd.Series.max` over a column of integers. -/
def colMax : List ℤ → ℤ
  | [] => 0
  | a :: l => maxAux a l

/-- `np.arange(lo, hi + 1)` on integers. -/
def intRange (lo hi : ℤ) : List ℤ :=
  (List.range (hi - lo + 1).toNat).map (fun i : ℕ => lo + (i : ℤ))

/-- The x axis of the reconstructed grid. -/
def xsOf (rows : List (ℤ × ℤ × ℚ)) : List ℤ :=
  intRange (colMin (rows.map (·.1))) (colMax (rows.map (·.1)))

/-- The y axis of the reconstructed grid. -/
def ysOf (rows : List (ℤ × ℤ × ℚ)) : List ℤ :=
  intRange (colMin (rows.map (·.2.1))) (colMax (rows.map (·.2.1)))

/-- `pivot` + `reindex`: the intensity recorded at (x, y), if any. The
scripts' `DataFrame.pivot` requires at most one row per (x, y) pair. -/
def pivotLookup (rows : List (ℤ × ℤ × ℚ)) (x y : ℤ) : Option ℚ :=
  (rows.find? (fun r => decide (r.1 = x ∧ r.2.1 = y))).map (·.2.2)

/-- The masking step: values outside [vmin, vmax] (and NaN) become NaN. -/
def maskCell (vmin vmax : ℚ) : Option ℚ → Option ℚ
  | none => none
  | some v => if v < vmin ∨ vmax < v then none else some v

/-- The dense per-slice grid the scripts hand to `sns.heatmap`: rows are y
values ascending, columns are x values ascending. -/
def reconstructGrid (rows : List (ℤ × ℤ × ℚ)) (vmin vmax : ℚ) :
    List (List (Option ℚ)) :=
  (ysOf rows).map (fun y => (xsOf rows).map (fun x =>
    maskCell vmin vmax (pivotLookup rows x y)))

/-! ### Concrete inputs used to witness the theorems below -/

/-- Two sparse rows of one z-slice, distinct (x, y) keys. -/
def sliceRows : List (ℤ × ℤ × ℚ) := [(0, 0, 5), (1, 1, 20)]

/-- A token parser for the witness files: the four numerals they contain. -/
def tokParse (s : Chars) : Option ℚ :=
  if s = str "7" then some 7
  else if s = str "3" then some 3
  else if s = str "-2" then some (-2)
  else if s = str "0" then some 0
  else if s = str "1" then some 1
  else none

/-- A jMRUI result file with an amplitude and a phase section. -/
def jmruiFile : List Chars :=
  [str "Amplitudes", str "7 3", str "Standard deviation of Amplitudes",
   str "Phases", str "-2 0", str "Standard deviation of Phases"]

/-- A jMRUI result file with a single amplitude and no phases. -/
def jmruiFileOneAmp : List Chars := [str "Amplitudes", str "1"]

/-- A TI file: one header line and two timing values. -/
def tiFileTwoVals : List Chars := [str "TI header", str "1", str "1"]

/-- A header row as parsed from a measurement file. -/
def c8headers : List Chars :=
  [str "Coord", str "Metabolite", str "Area", str "LDamping"]

end PhD

/-! ### Theorems -/

namespace PhD

theorem rotFun_90 (p : ℤ × ℤ × ℤ) :
    rotFun 90 p = (GRID_Y - 1 - p.2.1, p.1, p.2.2) := by
  simp [rotFun, rotP, rotate_coord, Except.toOption]

theorem rotFun_180 (p : ℤ × ℤ × ℤ) :
    rotFun 180 p = (GRID_X - 1 - p.1, GRID_Y - 1 - p.2.1, p.2.2) := by
  simp [rotFun, rotP, rotate_coord, Except.toOption]

theorem rotFun_270 (p : ℤ × ℤ × ℤ) :
    rotFun 270 p = (p.2.1, GRID_X - 1 - p.1, p.2.2) := by
  simp [rotFun, rotP, rotate_coord, Except.toOption]

theorem bijOn_rotFun_90 : Set.BijOn (rotFun 90) gridSet gridSet := by
  have hmaps : Set.MapsTo (rotFun 90) gridSet gridSet := by
    intro p hp
    simp only [gridSet, GRID_X, GRID_Y, Set.mem_setOf_eq, rotFun_90] at *
    omega
  have hmaps' : Set.MapsTo (rotFun 270) gridSet gridSet := by
    intro p hp
    simp only [gridSet, GRID_X, GRID_Y, Set.mem_setOf_eq, rotFun_270] at *
    omega
  refine Set.InvOn.bijOn ⟨?_, ?_⟩ hmaps hmaps'
  · intro p _
    simp only [rotFun_90, rotFun_270, GRID_X, GRID_Y]
    refine Prod.ext ?_ (Prod.ext ?_ ?_) <;> simp
  · intro p _
    simp only [rotFun_90, rotFun_270, GRID_X, GRID_Y]
    refine Prod.ext ?_ (Prod.ext ?_ ?_) <;> simp

theorem bijOn_rotFun_180 : Set.BijOn (rotFun 180) gridSet gridSet := by
  have hmaps : Set.MapsTo (rotFun 180) gridSet gridSet := by
    intro p hp
    simp only [gridSet, GRID_X, GRID_Y, Set.mem_setOf_eq, rotFun_180] at *
    omega
  refine Set.InvOn.bijOn ⟨?_, ?_⟩ hmaps hmaps
  · intro p _
    simp only [rotFun_180, GRID_X, GRID_Y]
    refine Prod.ext ?_ (Prod.ext ?_ ?_) <;> simp
  · intro p _
    simp only [rotFun_180, GRID_X, GRID_Y]
    refine Prod.ext ?_ (Prod.ext ?_ ?_) <;> simp

theorem bijOn_rotFun_270 : Set.BijOn (rotFun 270) gridSet gridSet := by
  have hmaps : Set.MapsTo (rotFun 270) gridSet gridSet := by
    intro p hp
    simp only [gridSet, GRID_X, GRID_Y, Set.mem_setOf_eq, rotFun_270] at *
    omega
  have hmaps' : Set.MapsTo (rotFun 90) gridSet gridSet := by
    intro p hp
    simp only [gridSet, GRID_X, GRID_Y, Set.mem_setOf_eq, rotFun_90] at *
    omega
  refine Set.InvOn.bijOn ⟨?_, ?_⟩ hmaps hmaps'
  · intro p _
    simp only [rotFun_90, rotFun_270, GRID_X, GRID_Y]
    refine Prod.ext ?_ (Prod.ext ?_ ?_) <;> simp
  · intro p _
    simp only [rotFun_90, rotFun_270, GRID_X, GRID_Y]
    refine Prod.ext ?_ (Prod.ext ?_ ?_) <;> simp

/-- C2: applying `rotate_coord` with rotation 90 four times returns the
original integer triple; rotation 180 equals 90 composed twice and 270
equals 90 composed three times; and each supported rotation is a bijection
of the 32×32 grid onto itself. -/
theorem c2_rotation_cycle_and_bijection :
    (∀ x y z : ℤ,
      (rotate_coord x y z 90 >>= rotP 90 >>= rotP 90 >>= rotP 90) =
        Except.ok (x, y, z)) ∧
    (∀ x y z : ℤ,
      rotate_coord x y z 180 = (rotate_coord x y z 90 >>= rotP 90)) ∧
    (∀ x y z : ℤ,
      rotate_coord x y z 270 = (rotate_coord x y z 90 >>= rotP 90 >>= rotP 90)) ∧
    Set.BijOn (rotFun 90) gridSet gridSet ∧
    Set.BijOn (rotFun 180) gridSet gridSet ∧
    Set.BijOn (rotFun 270) gridSet gridSet := by
  refine ⟨?_, ?_, ?_, bijOn_rotFun_90, bijOn_rotFun_180, bijOn_rotFun_270⟩
  · intro x y z
    simp [rotate_coord, rotP, GRID_X, GRID_Y, Bind.bind, Except.bind]
  · intro x y z
    simp [rotate_coord, rotP, GRID_X, GRID_Y, Bind.bind, Except.bind]
  · intro x y z
    simp [rotate_coord, rotP, GRID_X, GRID_Y, Bind.bind, Except.bind]

theorem floorLog10_123 : floorLog10 123 = 2 := by
  have hf : (⌊(123:ℚ)⌋).toNat = 123 := by
    rw [show ⌊(123:ℚ)⌋ = (123:ℤ) from by norm_num]
    decide
  rw [floorLog10, if_pos (by norm_num : (1:ℚ) ≤ 123), hf]
  decide

theorem floorLog10_78 : floorLog10 78 = 1 := by
  have hf : (⌊(78:ℚ)⌋).toNat = 78 := by
    rw [show ⌊(78:ℚ)⌋ = (78:ℤ) from by norm_num]
    decide
  rw [floorLog10, if_pos (by norm_num : (1:ℚ) ≤ 78), hf]
  decide

theorem round_up_nice_123 : round_up_nice 123 = 200 := by
  have ha : |(123:ℚ)| = 123 := by norm_num
  rw [round_up_nice, if_neg (by norm_num : ¬ (123:ℚ) = 0),
    if_pos (by norm_num : (0:ℚ) < 123), ha, floorLog10_123]
  have hc : ⌈(123:ℚ) / 10 ^ (2:ℤ)⌉ = 2 := by
    rw [Int.ceil_eq_iff]
    norm_num
  rw [hc]; norm_num

theorem round_up_nice_78 : round_up_nice 78 = 80 := by
  have ha : |(78:ℚ)| = 78 := by norm_num
  rw [round_up_nice, if_neg (by norm_num : ¬ (78:ℚ) = 0),
    if_pos (by norm_num : (0:ℚ) < 78), ha, floorLog10_78]
  have hc : ⌈(78:ℚ) / 10 ^ (1:ℤ)⌉ = 8 := by
    rw [Int.ceil_eq_iff]
    norm_num
  rw [hc]; norm_num

theorem round_down_nice_123 : round_down_nice 123 = 100 := by
  have ha : |(123:ℚ)| = 123 := by norm_num
  rw [round_down_nice, if_neg (by norm_num : ¬ (123:ℚ) = 0),
    if_pos (by norm_num : (0:ℚ) < 123), ha, floorLog10_123]
  have hc : ⌊(123:ℚ) / 10 ^ (2:ℤ)⌋ = 1 := by
    rw [Int.floor_eq_iff]
    norm_num
  rw [hc]; norm_num

theorem round_down_nice_78 : round_down_nice 78 = 70 := by
  have ha : |(78:ℚ)| = 78 := by norm_num
  rw [round_down_nice, if_neg (by norm_num : ¬ (78:ℚ) = 0),
    if_pos (by norm_num : (0:ℚ) < 78), ha, floorLog10_78]
  have hc : ⌊(78:ℚ) / 10 ^ (1:ℤ)⌋ = 7 := by
    rw [Int.floor_eq_iff]
    norm_num
  rw [hc]; norm_num

/-- C7: the 1-significant-digit outward rounding helpers satisfy
`round_up_nice 123 = 200`, `round_up_nice 78 = 80`,
`round_down_nice 123 = 100`, `round_down_nice 78 = 70`. -/
theorem c7_rounding_examples :
    round_up_nice 123 = 200 ∧ round_up_nice 78 = 80 ∧
    round_down_nice 123 = 100 ∧ round_down_nice 78 = 70 :=
  ⟨round_up_nice_123, round_up_nice_78, round_down_nice_123, round_down_nice_78⟩

/-- C1: whenever the bounded 3-parameter fit fails (any exception, modelled
as the solver oracle returning `none`) or the fitted efficiency factor
leaves `[0, 1.5]`, both relaxometry scripts fall back to the reduced model
with the efficiency factor fixed at `1.0`, and the failure itself is not
fatal: the T1 stage returns `Except.ok` (given the reduced fit the except
branch runs), and the T2 stage is a total function. -/
theorem c1_fit_fallback :
    (∀ fb : ℚ × ℚ, t1FitStage none (some fb) = .ok ⟨fb.1, fb.2, 1, true⟩) ∧
    (∀ g1 g2 : ℚ, t2FitStage none g1 g2 = ⟨g1, g2, 1, true⟩) ∧
    (∀ m t a g1 g2 : ℚ, ¬ (0 ≤ a ∧ a ≤ 1.5) →
      t2FitStage (some (m, t, a)) g1 g2 = ⟨g1, g2, 1, true⟩) := by
  refine ⟨fun fb => rfl, fun g1 g2 => rfl, fun m t a g1 g2 h => ?_⟩
  simp only [t2FitStage, if_neg h]

/-- Witness for C1 at concrete solver outcomes. -/
theorem c1_fit_fallback_witness :
    t1FitStage none (some (5, 7)) = .ok ⟨5, 7, 1, true⟩ ∧
    t2FitStage none 3 4 = ⟨3, 4, 1, true⟩ ∧
    (¬ ((0 : ℚ) ≤ 2 ∧ (2 : ℚ) ≤ 1.5) ∧
      t2FitStage (some (1, 2, 2)) 3 4 = ⟨3, 4, 1, true⟩) :=
  ⟨c1_fit_fallback.1 (5, 7), c1_fit_fallback.2.1 3 4,
    by norm_num, c1_fit_fallback.2.2 1 2 2 3 4 (by norm_num)⟩

/-- C3: in both relaxometry scripts, if the parsed timing list and the
parsed amplitude list have different lengths, the run fails with the
mismatch `ValueError` whatever the solver oracles would have answered: no
fit is consulted and no output tuple is produced. -/
theorem c3_length_mismatch_fatal :
    (∀ parseVal ampLines tiLines amps ti freeFit fixedFit,
      extract_signed_amplitudes_jmrui parseVal ampLines = .ok amps →
      load_ti_values parseVal tiLines = .ok ti →
      ti.length ≠ amps.length →
      t1Script parseVal ampLines tiLines freeFit fixedFit =
        .error "Number of TI values and amplitudes do not match.") ∧
    (∀ parseVal ampLines teLines freeFit fixedFit,
      (extract_amplitudes_jmrui parseVal ampLines).length ≠
        (loadTEValues parseVal teLines).length →
      t2Script parseVal ampLines teLines freeFit fixedFit =
        .error "Mismatch between amplitudes and TE values.") := by
  constructor
  · intro parseVal ampLines tiLines amps ti freeFit fixedFit hamp hti hne
    simp only [t1Script, hamp, hti, Except.bind, bind, if_pos hne]
    rfl
  · intro parseVal ampLines teLines freeFit fixedFit hne
    simp only [t2Script, if_pos hne]

/-- Witness for C3: 2 TI values against 1 amplitude (T1 script), and 1
amplitude against 0 TE values (T2 script). -/
theorem c3_length_mismatch_fatal_witness :
    (extract_signed_amplitudes_jmrui tokParse jmruiFileOneAmp = .ok [1] ∧
      load_ti_values tokParse tiFileTwoVals = .ok [1, 1] ∧
      ([1, 1] : List ℚ).length ≠ ([1] : List ℚ).length ∧
      t1Script tokParse jmruiFileOneAmp tiFileTwoVals
        (fun _ _ => none) (fun _ _ => none) =
        .error "Number of TI values and amplitudes do not match.") ∧
    ((extract_amplitudes_jmrui tokParse jmruiFileOneAmp).length ≠
        (loadTEValues tokParse []).length ∧
      t2Script tokParse jmruiFileOneAmp []
        (fun _ _ => none) (fun _ _ => none) =
        .error "Mismatch between amplitudes and TE values.") :=
  ⟨⟨by rfl, by rfl, by decide,
    c3_length_mismatch_fatal.1 tokParse jmruiFileOneAmp tiFileTwoVals [1] [1, 1]
      (fun _ _ => none) (fun _ _ => none) (by rfl) (by rfl) (by decide)⟩,
   ⟨by decide,
    c3_length_mismatch_fatal.2 tokParse jmruiFileOneAmp []
      (fun _ _ => none) (fun _ _ => none) (by decide)⟩⟩

/-- C10: given the lists the scanning loop collects, the signed-amplitude
extraction returns the first `min` amplitudes, each negated exactly when
the matching phase is strictly negative (phase 0 keeps the parsed sign);
with no phases the amplitudes are returned unchanged; with no amplitudes it
raises. -/
theorem c10_extract_signed (parseVal : Chars → Option ℚ) (lines : List Chars)
    (amps phases : List ℚ)
    (hscan : jmruiScan parseVal lines = (amps, phases)) :
    (amps = [] →
      extract_signed_amplitudes_jmrui parseVal lines = .error "No amplitudes found.") ∧
    (amps ≠ [] → phases = [] →
      extract_signed_amplitudes_jmrui parseVal lines = .ok amps) ∧
    (amps ≠ [] → phases ≠ [] →
      ∃ out, extract_signed_amplitudes_jmrui parseVal lines = .ok out ∧
        out.length = min amps.length phases.length ∧
        ∀ (i : ℕ) (hi : i < amps.length) (hj : i < phases.length)
          (ho : i < out.length),
          out[i] = if phases[i] < 0 then -amps[i] else amps[i]) := by
  refine ⟨?_, ?_, ?_⟩
  · intro h
    simp only [extract_signed_amplitudes_jmrui, hscan, if_pos h]
  · intro h1 h2
    simp only [extract_signed_amplitudes_jmrui, hscan, if_neg h1, if_pos h2]
  · intro h1 h2
    refine ⟨List.zipWith (fun a p => if 0 ≤ p then a else -a) amps phases, ?_, ?_, ?_⟩
    · simp only [extract_signed_amplitudes_jmrui, hscan, if_neg h1, if_neg h2]
    · exact List.length_zipWith ..
    · intro i _ hj ho
      simp only [List.getElem_zipWith]
      rcases lt_or_le phases[i] 0 with hp | hp
      · rw [if_pos hp, if_neg (not_le.mpr hp)]
      · rw [if_neg (not_lt.mpr hp), if_pos hp]

/-- Witness for C10 on a two-amplitude, two-phase jMRUI file: amplitude 7
with phase −2 is negated, amplitude 3 with phase 0 is kept. -/
theorem c10_extract_signed_witness :
    jmruiScan tokParse jmruiFile = ([7, 3], [-2, 0]) ∧
    ([7, 3] : List ℚ) ≠ [] ∧ ([-2, 0] : List ℚ) ≠ [] ∧
    (∃ out, extract_signed_amplitudes_jmrui tokParse jmruiFile = .ok out ∧
      out.length = min ([7, 3] : List ℚ).length ([-2, 0] : List ℚ).length ∧
      ∀ (i : ℕ) (hi : i < ([7, 3] : List ℚ).length)
        (hj : i < ([-2, 0] : List ℚ).length) (ho : i < out.length),
        out[i] = if ([-2, 0] : List ℚ)[i] < 0 then -(([7, 3] : List ℚ)[i])
          else ([7, 3] : List ℚ)[i]) :=
  ⟨by decide, by decide, by decide,
    (c10_extract_signed tokParse jmruiFile [7, 3] [-2, 0] (by decide)).2.2
      (by decide) (by decide)⟩

/-- C6 counterexample: a file whose single line is a `Coord` header. The
claim says a block that cannot be processed is passed through unchanged and
the run is never fatal; the code reads `lines[i+1]` before the try block
and dies with an uncaught `IndexError`. -/
theorem c6_truncated_block_fatal :
    processLines 90 [str "Coord"] = .error "IndexError: list index out of range" := by
  rfl

/-- C6 (amended): for every complete three-line voxel block whose data line
fails to parse or rotate, the three original lines are passed through
unchanged and processing continues with the rest of the file; only a
`Coord` header within the last two lines of the file is fatal. -/
theorem c6_malformed_block_passthrough (rotation : ℤ) (l d e : Chars)
    (rest : List Chars)
    (hcoord : startsWithChars (str "Coord") (strip l) = true)
    (hfail : rotateDataLine rotation (strip d) = none) :
    processLines rotation (l :: d :: e :: rest) =
      (processLines rotation rest).map (fun out => l :: d :: e :: out) := by
  simp only [processLines, hcoord, if_pos, hfail]

/-- Witness for C6 on a block whose coordinate field is not `x_y_z`. -/
theorem c6_malformed_block_passthrough_witness :
    startsWithChars (str "Coord") (strip (str "Coord X_Y_Z")) = true ∧
    rotateDataLine 90 (strip (str "badcoord\t5")) = none ∧
    processLines 90 [str "Coord X_Y_Z", str "badcoord\t5", str "###"] =
      (processLines 90 []).map
        (fun out => str "Coord X_Y_Z" :: str "badcoord\t5" :: str "###" :: out) :=
  ⟨by decide, by decide,
    c6_malformed_block_passthrough 90 (str "Coord X_Y_Z") (str "badcoord\t5")
      (str "###") [] (by decide) (by decide)⟩

theorem str_eq_singleton : str "=" = ['='] := rfl

theorem startsWithChars_eq_append (t : Chars) :
    startsWithChars (str "=") (str "=" ++ t) = true := by
  rw [str_eq_singleton, List.singleton_append]
  simp [startsWithChars, List.isPrefixOf]

theorem rowRefAppend (r : ℕ) (a b c : Chars) :
    RowRef r (a ++ (b ++ (natToChars r ++ c))) :=
  ⟨a ++ b, c, by simp [List.append_assoc]⟩

/-- C8 counterexample: in per-slice sheets the `c [mM]` cells are written
as empty strings, not as formulas beginning with `=`. -/
theorem c8_zsheet_cmM_empty :
    cmM_cell false 5 = CellVal.text (str "") ∧
    startsWithChars (str "=") (str "") = false :=
  ⟨rfl, by decide⟩

/-- C8 (amended): every Height/FWHM/I0ps/I0 cell the writer emits (phantom
and subject halves of the "all" sheet, per-slice sheets) and the `c [mM]`
cell of the "all" sheet is a text cell whose content begins with `=` and
references a cell of its row; the `c [mM]` cells of per-slice sheets are
written as empty text; no derived cell is ever a precomputed number. -/
theorem c8_derived_cells_are_formulas (headers : List Chars) (r : ℕ) :
    (∀ cv ∈ allSheetDerivedP headers r ++ allSheetDerivedS headers r ++
        zSheetDerived headers r,
      ∃ s, cv.2 = CellVal.text s ∧ startsWithChars (str "=") s = true ∧
        RowRef r s) ∧
    (∃ s, cmM_cell true r = CellVal.text s ∧
      startsWithChars (str "=") s = true ∧ RowRef r s) ∧
    cmM_cell false r = CellVal.text (str "") := by
  refine ⟨?_, ⟨_, rfl, startsWithChars_eq_append _, rowRefAppend r _ _ _⟩, rfl⟩
  intro cv hcv
  simp only [allSheetDerivedP, allSheetDerivedS, zSheetDerived,
    List.mem_append, List.mem_cons, List.not_mem_nil, or_false] at hcv
  rcases hcv with ((h | h | h | h) | (h | h | h | h)) | (h | h | h | h) <;>
    subst h <;>
    exact ⟨_, rfl, startsWithChars_eq_append _, rowRefAppend r _ _ _⟩

/-- Witness for C8 at a concrete header row and row number. -/
theorem c8_derived_cells_are_formulas_witness :
    (∀ cv ∈ allSheetDerivedP c8headers 5 ++ allSheetDerivedS c8headers 5 ++
        zSheetDerived c8headers 5,
      ∃ s, cv.2 = CellVal.text s ∧ startsWithChars (str "=") s = true ∧
        RowRef 5 s) ∧
    (∃ s, cmM_cell true 5 = CellVal.text s ∧
      startsWithChars (str "=") s = true ∧ RowRef 5 s) ∧
    cmM_cell false 5 = CellVal.text (str "") :=
  c8_derived_cells_are_formulas c8headers 5

theorem mem_insertSorted {x y : Chars} {l : List Chars} :
    y ∈ insertSorted x l ↔ y = x ∨ y ∈ l := by
  induction l with
  | nil => simp [insertSorted]
  | cons a t ih =>
    by_cases h : charsLe x a
    · simp [insertSorted, h]
    · simp [insertSorted, h, ih]
      tauto

theorem mem_sortChars {y : Chars} {l : List Chars} : y ∈ sortChars l ↔ y ∈ l := by
  induction l with
  | nil => simp [sortChars]
  | cons a t ih => simp [sortChars, mem_insertSorted, ih]

/-- C9: for every folder, the script's only file-system actions are
creating the `new` subfolder and copying folder `.dcm` files to fresh
destinations inside `new/` — no existing file is modified, renamed in
place, moved or deleted; folders with no `.dcm` or without exactly one
`.txt` are skipped with the missing-DCM/TXT reason; folders whose `.dcm`
count differs from the name count read from the `.txt` are skipped with
the count-mismatch reason; and every skipped folder gets no action at all
and is not reported processed. -/
theorem c9_dicom_rename_copy_safety (files : List Chars)
    (readNames : Chars → List Chars) :
    (∀ a ∈ (process_folder files readNames).actions,
      a = FsAction.mkdir (str "new") ∨
      ∃ src name, src ∈ files ∧
        (str ".dcm").isSuffixOf (lowerChars src) = true ∧
        a = FsAction.copy src (str "new/" ++ name ++ str ".dcm")) ∧
    ((files.filter (fun f => (str ".dcm").isSuffixOf (lowerChars f)) = [] ∨
        (files.filter (fun f => (str ".txt").isSuffixOf (lowerChars f))).length ≠ 1) →
      process_folder files readNames =
        ⟨[], false, some (str "Missing DCM or TXT / multiple TXT")⟩) ∧
    (files.filter (fun f => (str ".dcm").isSuffixOf (lowerChars f)) ≠ [] →
      (files.filter (fun f => (str ".txt").isSuffixOf (lowerChars f))).length = 1 →
      (sortChars (files.filter
          (fun f => (str ".dcm").isSuffixOf (lowerChars f)))).length ≠
        (readNames ((files.filter
          (fun f => (str ".txt").isSuffixOf (lowerChars f))).headD [])).length →
      process_folder files readNames =
        ⟨[], false, some (str "DCM/TXT count mismatch")⟩) ∧
    (∀ skipped, (process_folder files readNames).skipReason = some skipped →
      (process_folder files readNames).actions = [] ∧
      (process_folder files readNames).processed = false) := by
  have hnil : sortChars (files.filter
      (fun f => (str ".dcm").isSuffixOf (lowerChars f))) = [] ↔
      files.filter (fun f => (str ".dcm").isSuffixOf (lowerChars f)) = [] := by
    constructor
    · intro h
      cases hf : files.filter (fun f => (str ".dcm").isSuffixOf (lowerChars f)) with
      | nil => rfl
      | cons a t =>
        rw [hf] at h
        simp only [sortChars] at h
        cases hsort : sortChars t with
        | nil => rw [hsort] at h; simp [insertSorted] at h
        | cons b u =>
          rw [hsort] at h
          simp only [insertSorted] at h
          by_cases hc : charsLe a b
          · simp [hc] at h
          · simp [hc] at h
    · intro h
      rw [h]
      rfl
  refine ⟨?_, ?_, ?_, ?_⟩
  · intro a ha
    by_cases h1 : sortChars (files.filter
        (fun f => (str ".dcm").isSuffixOf (lowerChars f))) = [] ∨
        (files.filter (fun f => (str ".txt").isSuffixOf (lowerChars f))).length ≠ 1
    · simp only [process_folder, if_pos h1] at ha
      simp at ha
    · by_cases h2 : (sortChars (files.filter
          (fun f => (str ".dcm").isSuffixOf (lowerChars f)))).length ≠
          (readNames ((files.filter
            (fun f => (str ".txt").isSuffixOf (lowerChars f))).headD [])).length
      · simp only [process_folder, if_neg h1, if_pos h2] at ha
        simp at ha
      · simp only [process_folder, if_neg h1, if_neg h2] at ha
        rcases List.mem_cons.mp ha with h | h
        · exact Or.inl h
        · right
          rcases List.mem_map.mp h with ⟨p, hp, rfl⟩
          have hmem := (List.of_mem_zip hp).1
          rw [mem_sortChars, List.mem_filter] at hmem
          exact ⟨p.1, p.2, hmem.1, hmem.2, rfl⟩
  · intro h1
    have h1' : sortChars (files.filter
        (fun f => (str ".dcm").isSuffixOf (lowerChars f))) = [] ∨
        (files.filter (fun f => (str ".txt").isSuffixOf (lowerChars f))).length ≠ 1 := by
      rcases h1 with h | h
      · exact Or.inl (hnil.mpr h)
      · exact Or.inr h
    simp only [process_folder, if_pos h1']
  · intro hne h1 hmm
    have hcond : ¬ (sortChars (files.filter
        (fun f => (str ".dcm").isSuffixOf (lowerChars f))) = [] ∨
        (files.filter (fun f => (str ".txt").isSuffixOf (lowerChars f))).length ≠ 1) := by
      rintro (h | h)
      · exact hne (hnil.mp h)
      · exact h h1
    simp only [process_folder, if_neg hcond, if_pos hmm]
  · intro skipped hskip
    by_cases h1 : sortChars (files.filter
        (fun f => (str ".dcm").isSuffixOf (lowerChars f))) = [] ∨
        (files.filter (fun f => (str ".txt").isSuffixOf (lowerChars f))).length ≠ 1
    · simp only [process_folder, if_pos h1]
      exact ⟨trivial, trivial⟩
    · by_cases h2 : (sortChars (files.filter
          (fun f => (str ".dcm").isSuffixOf (lowerChars f)))).length ≠
          (readNames ((files.filter
            (fun f => (str ".txt").isSuffixOf (lowerChars f))).headD [])).length
      · simp only [process_folder, if_neg h1, if_pos h2]
        exact ⟨trivial, trivial⟩
      · simp only [process_folder, if_neg h1, if_neg h2] at hskip
        simp at hskip

/-- Witness for C9: the folder `a.dcm`, `b.dcm`, `names.txt` is processed
when the txt names two outputs; the same folder is skipped with the
count-mismatch reason when the txt names only one; a folder holding a lone
`names.txt` is skipped with the missing-DCM/TXT reason. -/
theorem c9_dicom_rename_copy_safety_witness :
    (∀ a ∈ (process_folder [str "a.dcm", str "b.dcm", str "names.txt"]
        (fun _ => [str "x", str "y"])).actions,
      a = FsAction.mkdir (str "new") ∨
      ∃ src name, src ∈ [str "a.dcm", str "b.dcm", str "names.txt"] ∧
        (str ".dcm").isSuffixOf (lowerChars src) = true ∧
        a = FsAction.copy src (str "new/" ++ name ++ str ".dcm")) ∧
    process_folder [str "a.dcm", str "b.dcm", str "names.txt"]
        (fun _ => [str "x", str "y"]) =
      ⟨[FsAction.mkdir (str "new"),
        FsAction.copy (str "a.dcm") (str "new/" ++ str "x" ++ str ".dcm"),
        FsAction.copy (str "b.dcm") (str "new/" ++ str "y" ++ str ".dcm")],
        true, none⟩ ∧
    process_folder [str "names.txt"] (fun _ => [str "x", str "y"]) =
      ⟨[], false, some (str "Missing DCM or TXT / multiple TXT")⟩ ∧
    process_folder [str "a.dcm", str "b.dcm", str "names.txt"]
        (fun _ => [str "x"]) =
      ⟨[], false, some (str "DCM/TXT count mismatch")⟩ ∧
    (process_folder [str "a.dcm", str "b.dcm", str "names.txt"]
        (fun _ => [str "x"])).actions = [] ∧
    (process_folder [str "a.dcm", str "b.dcm", str "names.txt"]
        (fun _ => [str "x"])).processed = false :=
  have hmismatch : process_folder [str "a.dcm", str "b.dcm", str "names.txt"]
      (fun _ => [str "x"]) = ⟨[], false, some (str "DCM/TXT count mismatch")⟩ :=
    (c9_dicom_rename_copy_safety [str "a.dcm", str "b.dcm", str "names.txt"]
      (fun _ => [str "x"])).2.2.1 (by decide) (by decide) (by decide)
  ⟨(c9_dicom_rename_copy_safety [str "a.dcm", str "b.dcm", str "names.txt"]
      (fun _ => [str "x", str "y"])).1,
   by decide,
   (c9_dicom_rename_copy_safety [str "names.txt"]
      (fun _ => [str "x", str "y"])).2.1 (Or.inl (by decide)),
   hmismatch,
   ((c9_dicom_rename_copy_safety [str "a.dcm", str "b.dcm", str "names.txt"]
      (fun _ => [str "x"])).2.2.2 (str "DCM/TXT count mismatch")
      (by rw [hmismatch])).1,
   ((c9_dicom_rename_copy_safety [str "a.dcm", str "b.dcm", str "names.txt"]
      (fun _ => [str "x"])).2.2.2 (str "DCM/TXT count mismatch")
      (by rw [hmismatch])).2⟩

/-- C4 counterexample: the user's vmax (5) is tighter than the data's
actual maximum (10); the claim says the bound is widened outward to the
decade-aligned 10, but the code only adjusts a vmax that exceeds the data
maximum and leaves the tighter bound at 5. -/
theorem c4_tighter_bound_not_widened :
    adjustBounds true 2 5 2 10 = (2, 5, false) ∧ (5 : ℚ) < 10 := by
  constructor
  · decide
  · norm_num

/-- C4 (amended): a user bound looser than the data extent is snapped to
the 1-significant-digit rounding of the data extremum, clamped to stay
outside the data range; a bound tighter than the data extent is left
unchanged; the returned pair always satisfies vmin ≤ vmax, and when the
independently adjusted vmin exceeds the adjusted vmax the two are swapped
with the warning flag set. -/
theorem c4_bounds_adjustment (hasValues : Bool)
    (vmin vmax actualMin actualMax : ℚ) :
    (hasValues = true → actualMax < vmax →
      adjustVmax hasValues vmax actualMax =
        max actualMax (round_up_nice actualMax) ∧
      actualMax ≤ adjustVmax hasValues vmax actualMax) ∧
    (hasValues = true → vmin < actualMin →
      adjustVmin hasValues vmin actualMin =
        min actualMin (round_down_nice actualMin) ∧
      adjustVmin hasValues vmin actualMin ≤ actualMin) ∧
    (vmax ≤ actualMax → adjustVmax hasValues vmax actualMax = vmax) ∧
    (actualMin ≤ vmin → adjustVmin hasValues vmin actualMin = vmin) ∧
    ((adjustBounds hasValues vmin vmax actualMin actualMax).1 ≤
      (adjustBounds hasValues vmin vmax actualMin actualMax).2.1) ∧
    (adjustVmax hasValues vmax actualMax < adjustVmin hasValues vmin actualMin →
      adjustBounds hasValues vmin vmax actualMin actualMax =
        (adjustVmax hasValues vmax actualMax,
          adjustVmin hasValues vmin actualMin, true)) := by
  refine ⟨?_, ?_, ?_, ?_, ?_, ?_⟩
  · intro hv hlt
    rw [adjustVmax, if_pos ⟨hv, hlt⟩]
    rcases lt_or_le (round_up_nice actualMax) actualMax with h | h
    · rw [if_pos h, max_eq_left (le_of_lt h)]
      exact ⟨rfl, le_refl _⟩
    · rw [if_neg (not_lt.mpr h), max_eq_right h]
      exact ⟨rfl, h⟩
  · intro hv hlt
    rw [adjustVmin, if_pos ⟨hv, hlt⟩]
    rcases lt_or_le actualMin (round_down_nice actualMin) with h | h
    · rw [if_pos h, min_eq_left (le_of_lt h)]
      exact ⟨rfl, le_refl _⟩
    · rw [if_neg (not_lt.mpr h), min_eq_right h]
      exact ⟨rfl, h⟩
  · intro h
    rw [adjustVmax, if_neg (fun hc => absurd hc.2 (not_lt.mpr h))]
  · intro h
    rw [adjustVmin, if_neg (fun hc => absurd hc.2 (not_lt.mpr h))]
  · rw [adjustBounds]
    rcases lt_or_le (adjustVmax hasValues vmax actualMax)
        (adjustVmin hasValues vmin actualMin) with h | h
    · rw [if_pos h]
      exact le_of_lt h
    · rw [if_neg (not_lt.mpr h)]
      exact h
  · intro h
    rw [adjustBounds, if_pos h]

/-- Witness for C4 at concrete bounds: user range [50, 200] against data
range [78, 123] snaps to [70, 200] without a swap. -/
theorem c4_bounds_adjustment_witness :
    (123 : ℚ) < 200 ∧ (50 : ℚ) < 78 ∧
    adjustVmax true 200 123 = 200 ∧
    adjustVmin true 50 78 = 70 ∧
    adjustBounds true 50 200 78 123 = (70, 200, false) := by
  have h := c4_bounds_adjustment true 50 200 78 123
  have hmax : adjustVmax true 200 123 = 200 := by
    rw [(h.1 rfl (by norm_num)).1, round_up_nice_123,
      max_eq_right (by norm_num : (123 : ℚ) ≤ 200)]
  have hmin : adjustVmin true 50 78 = 70 := by
    rw [(h.2.1 rfl (by norm_num)).1, round_down_nice_78,
      min_eq_right (by norm_num : (70 : ℚ) ≤ 78)]
  refine ⟨by norm_num, by norm_num, hmax, hmin, ?_⟩
  rw [adjustBounds, hmax, hmin, if_neg (by norm_num : ¬ (200 : ℚ) < 70)]

theorem minAux_le (l : List ℤ) :
    ∀ a : ℤ, minAux a l ≤ a ∧ ∀ b ∈ l, minAux a l ≤ b := by
  induction l with
  | nil =>
    intro a
    exact ⟨le_refl a, by simp⟩
  | cons c t ih =>
    intro a
    have h := ih (min a c)
    refine ⟨le_trans h.1 (min_le_left a c), ?_⟩
    intro b hb
    rcases List.mem_cons.mp hb with rfl | hbt
    · exact le_trans h.1 (min_le_right a b)
    · exact h.2 b hbt

theorem maxAux_ge (l : List ℤ) :
    ∀ a : ℤ, a ≤ maxAux a l ∧ ∀ b ∈ l, b ≤ maxAux a l := by
  induction l with
  | nil =>
    intro a
    exact ⟨le_refl a, by simp⟩
  | cons c t ih =>
    intro a
    have h := ih (max a c)
    refine ⟨le_trans (le_max_left a c) h.1, ?_⟩
    intro b hb
    rcases List.mem_cons.mp hb with rfl | hbt
    · exact le_trans (le_max_right a b) h.1
    · exact h.2 b hbt

theorem colMin_le_of_mem {x : ℤ} {l : List ℤ} (h : x ∈ l) : colMin l ≤ x := by
  cases l with
  | nil => cases h
  | cons a t =>
    rcases List.mem_cons.mp h with rfl | ht
    · exact (minAux_le t x).1
    · exact (minAux_le t a).2 x ht

theorem le_colMax_of_mem {x : ℤ} {l : List ℤ} (h : x ∈ l) : x ≤ colMax l := by
  cases l with
  | nil => cases h
  | cons a t =>
    rcases List.mem_cons.mp h with rfl | ht
    · exact (maxAux_ge t x).1
    · exact (maxAux_ge t a).2 x ht

theorem mem_intRange {lo hi v : ℤ} (h1 : lo ≤ v) (h2 : v ≤ hi) :
    v ∈ intRange lo hi := by
  rw [intRange, List.mem_map]
  refine ⟨(v - lo).toNat, ?_, ?_⟩
  · rw [List.mem_range]
    omega
  · omega

theorem nodup_intRange (lo hi : ℤ) : (intRange lo hi).Nodup := by
  rw [intRange]
  refine List.Nodup.map ?_ (List.nodup_range _)
  intro i j hij
  dsimp only at hij
  omega

theorem pivotLookup_of_mem {rows : List (ℤ × ℤ × ℚ)} {r : ℤ × ℤ × ℚ}
    (huniq : rows.Pairwise (fun a b => (a.1, a.2.1) ≠ (b.1, b.2.1)))
    (hr : r ∈ rows) : pivotLookup rows r.1 r.2.1 = some r.2.2 := by
  induction rows with
  | nil => cases hr
  | cons a t ih =>
    rcases List.mem_cons.mp hr with rfl | hmem
    · rw [pivotLookup, List.find?_cons_of_pos]
      · rfl
      · simp
    · have hk := (List.pairwise_cons.mp huniq).1 r hmem
      have hkey : ¬ (a.1 = r.1 ∧ a.2.1 = r.2.1) := by
        rintro ⟨h1, h2⟩
        exact hk (by rw [h1, h2])
      rw [pivotLookup, List.find?_cons_of_neg]
      · exact ih (List.pairwise_cons.mp huniq).2 hmem
      · simpa using hkey

/-- C5: the reconstructed slice grid has one row per y in the full observed
y range and one cell per x in the full observed x range (both axes without
duplicates and containing every observed coordinate); every cell is the
masked pivot lookup of its (x, y); (x, y) pairs absent from the rows give
the `none` sentinel; an in-window recorded value is preserved unchanged;
an out-of-window recorded value is masked to `none`, never clipped. -/
theorem c5_grid_reconstruction (rows : List (ℤ × ℤ × ℚ)) (vmin vmax : ℚ)
    (huniq : rows.Pairwise (fun a b => (a.1, a.2.1) ≠ (b.1, b.2.1))) :
    ((reconstructGrid rows vmin vmax).length = (ysOf rows).length ∧
      ∀ row ∈ reconstructGrid rows vmin vmax, row.length = (xsOf rows).length) ∧
    ((xsOf rows).Nodup ∧ (ysOf rows).Nodup) ∧
    (∀ r ∈ rows, r.1 ∈ xsOf rows ∧ r.2.1 ∈ ysOf rows) ∧
    (∀ (j i : ℕ) (hj : j < (ysOf rows).length) (hi : i < (xsOf rows).length),
      ∃ (hj2 : j < (reconstructGrid rows vmin vmax).length)
        (hi2 : i < (reconstructGrid rows vmin vmax)[j].length),
        (reconstructGrid rows vmin vmax)[j][i] =
          maskCell vmin vmax (pivotLookup rows (xsOf rows)[i] (ysOf rows)[j])) ∧
    (∀ x y : ℤ, (∀ r ∈ rows, ¬ (r.1 = x ∧ r.2.1 = y)) →
      maskCell vmin vmax (pivotLookup rows x y) = none) ∧
    (∀ r ∈ rows, vmin ≤ r.2.2 → r.2.2 ≤ vmax →
      maskCell vmin vmax (pivotLookup rows r.1 r.2.1) = some r.2.2) ∧
    (∀ r ∈ rows, (r.2.2 < vmin ∨ vmax < r.2.2) →
      maskCell vmin vmax (pivotLookup rows r.1 r.2.1) = none) := by
  refine ⟨⟨?_, ?_⟩, ⟨nodup_intRange _ _, nodup_intRange _ _⟩, ?_, ?_, ?_, ?_, ?_⟩
  · simp [reconstructGrid]
  · intro row hrow
    rcases List.mem_map.mp hrow with ⟨y, _, rfl⟩
    simp
  · intro r hr
    constructor
    · exact mem_intRange (colMin_le_of_mem (List.mem_map_of_mem _ hr))
        (le_colMax_of_mem (List.mem_map_of_mem _ hr))
    · exact mem_intRange (colMin_le_of_mem (List.mem_map_of_mem _ hr))
        (le_colMax_of_mem (List.mem_map_of_mem _ hr))
  · intro j i hj hi
    have hj' : j < (reconstructGrid rows vmin vmax).length := by
      simpa [reconstructGrid] using hj
    refine ⟨hj', ?_, ?_⟩
    · simp only [reconstructGrid, List.getElem_map, List.length_map]
      exact hi
    · simp only [reconstructGrid, List.getElem_map]
  · intro x y hnone
    have hfind : rows.find? (fun r => decide (r.1 = x ∧ r.2.1 = y)) = none := by
      rw [List.find?_eq_none]
      intro r hr
      simpa using hnone r hr
    rw [pivotLookup, hfind]
    rfl
  · intro r hr h1 h2
    rw [pivotLookup_of_mem huniq hr, maskCell]
    rw [if_neg]
    push_neg
    exact ⟨h1, h2⟩
  · intro r hr h
    rw [pivotLookup_of_mem huniq hr, maskCell]
    rw [if_pos h]

/-- Witness for C5 on two rows (0,0,5) and (1,1,20) with window [0, 10]:
the 2×2 grid keeps 5, masks 20, and fills the two untouched cells. -/
theorem c5_grid_reconstruction_witness :
    sliceRows.Pairwise (fun a b => (a.1, a.2.1) ≠ (b.1, b.2.1)) ∧
    (((reconstructGrid sliceRows 0 10).length = (ysOf sliceRows).length ∧
      ∀ row ∈ reconstructGrid sliceRows 0 10, row.length = (xsOf sliceRows).length) ∧
    ((xsOf sliceRows).Nodup ∧ (ysOf sliceRows).Nodup) ∧
    (∀ r ∈ sliceRows, r.1 ∈ xsOf sliceRows ∧ r.2.1 ∈ ysOf sliceRows) ∧
    (∀ (j i : ℕ) (hj : j < (ysOf sliceRows).length)
        (hi : i < (xsOf sliceRows).length),
      ∃ (hj2 : j < (reconstructGrid sliceRows 0 10).length)
        (hi2 : i < (reconstructGrid sliceRows 0 10)[j].length),
        (reconstructGrid sliceRows 0 10)[j][i] =
          maskCell 0 10 (pivotLookup sliceRows (xsOf sliceRows)[i] (ysOf sliceRows)[j])) ∧
    (∀ x y : ℤ, (∀ r ∈ sliceRows, ¬ (r.1 = x ∧ r.2.1 = y)) →
      maskCell 0 10 (pivotLookup sliceRows x y) = none) ∧
    (∀ r ∈ sliceRows, 0 ≤ r.2.2 → r.2.2 ≤ 10 →
      maskCell 0 10 (pivotLookup sliceRows r.1 r.2.1) = some r.2.2) ∧
    (∀ r ∈ sliceRows, (r.2.2 < 0 ∨ 10 < r.2.2) →
      maskCell 0 10 (pivotLookup sliceRows r.1 r.2.1) = none)) :=
  ⟨by decide, c5_grid_reconstruction sliceRows 0 10 (by decide)⟩

end PhD
